import Mathlib

/-!
Verification of the brozzler command line layer (brozzler/cli.py).

Each Python construct that the properties below depend on is embedded as an
executable Lean definition.  Pure computations become Lean functions; effectful
code (signal handlers, logging, process exit, the rethinkdb query) becomes
explicit state passing or a result record describing the observable effects of
one invocation.  External collaborators (the rethinkdb client, the json and
surt libraries, the browser) enter either as function parameters or, where a
property is directly about their contract, as definitions modelled from the
specification and marked as such.
-/

namespace Brozzler

/-! ## Shutdown signal handling (brozzler_worker, cli.py lines 288-316)

The worker entry point installs three signal handlers:

  def sigterm(signum, frame):
      raise brozzler.ShutdownRequested(...caught SIGTERM...)
  def sigint(signum, frame):
      raise brozzler.ShutdownRequested(...caught SIGINT...)

and dump_state for SIGQUIT (modelled further below).  The SIGTERM and SIGINT
handlers are registered once and never changed; they keep no state.  The
observable effect of one delivery of a stop signal is therefore a value of
`HandlerEffect`.
-/

/-- Observable effect of running one signal handler: either nothing happens, or
the handler raises a ShutdownRequested exception carrying a message. -/
inductive HandlerEffect where
  | noop
  | raiseShutdownRequested (msg : String)
deriving DecidableEq

/-- Embedding of the `sigterm` handler defined inside brozzler_worker
(cli.py line 288): it unconditionally raises ShutdownRequested. -/
def sigterm (signum : Nat) : HandlerEffect :=
  HandlerEffect.raiseShutdownRequested "shutdown requested (caught SIGTERM)"

/-- Embedding of the `sigint` handler defined inside brozzler_worker
(cli.py line 290): it unconditionally raises ShutdownRequested. -/
def sigint (signum : Nat) : HandlerEffect :=
  HandlerEffect.raiseShutdownRequested "shutdown requested (caught SIGINT)"

/-- The two stop signals the worker entry point registers handlers for
(cli.py lines 315-316). -/
inductive StopSig where
  | SIGTERM
  | SIGINT
deriving DecidableEq

/-- Delivering one stop signal runs the handler registered for it.  The
registration (signal.signal calls at cli.py lines 315-316) happens once at
startup and is never modified afterwards, so every delivery of a given signal
runs the same stateless handler.  Signal numbers are the conventional 15 and 2. -/
def deliverStopSignal : StopSig → HandlerEffect
  | StopSig.SIGTERM => sigterm 15
  | StopSig.SIGINT => sigint 2

/-- Effects of a whole sequence of delivered stop signals, in order. -/
def deliverStopSignals (sigs : List StopSig) : List HandlerEffect :=
  sigs.map deliverStopSignal

/-! ## brozzler_new_job (cli.py lines 180-207)

The entry point calls brozzler.job.new_job_file and, when that raises
InvalidJobConf, prints the structured errors object and exits with code 1;
when it does not raise, the function returns normally and the process exits
with code 0.  The outcome of new_job_file (a collaborator living in
brozzler/job.py) is a parameter: either success or an InvalidJobConf whose
`errors` field maps configuration fields to problems. -/

/-- Observable result of one brozzler_new_job invocation. -/
structure NewJobRun where
  exitCode : Nat
  printedValidationErrors : Option (List (String × String))
deriving DecidableEq

/-- Embedding of the try/except block of brozzler_new_job (cli.py lines
202-207): on InvalidJobConf the errors object is printed and the process
exits 1; otherwise the entry point falls off the end, exit code 0. -/
def brozzler_new_job (jobConfOutcome : Except (List (String × String)) Unit) :
    NewJobRun :=
  match jobConfOutcome with
  | Except.error errs => { exitCode := 1, printedValidationErrors := some errs }
  | Except.ok _ => { exitCode := 0, printedValidationErrors := none }

/-! ## brozzle_page (cli.py lines 109-178)

Single page mode.  The argument handling and object construction (lines
148-157) build a synthetic Site with id -1, a Page pointing at that Site, and
a BrozzlerWorker with frontier=None; no rethinkdb connection is opened
anywhere in this entry point.  The browse itself (lines 171-178) is a
try/except/finally: ReachedLimit is caught and logged, the finally clause
stops the browser in every case, and any other exception propagates after the
browser is stopped. -/

/-- The fields of brozzler.Site that brozzle_page passes to the constructor
(cli.py lines 151-155).  Behavior parameters are a parsed json object,
modelled as an association list. -/
structure Site where
  id : Int
  seed : String
  proxy : Option String
  enable_warcprox_features : Bool
  behavior_parameters : List (String × String)
  username : Option String
  password : Option String
deriving DecidableEq

/-- The fields of brozzler.Page that brozzle_page passes to the constructor
(cli.py line 156). -/
structure Page where
  url : String
  site_id : Int
deriving DecidableEq

/-- A reference to a frontier object (brozzler.RethinkDbFrontier). -/
inductive FrontierRef where
  | rethinkDbFrontier
deriving DecidableEq

/-- The one field of brozzler.BrozzlerWorker that brozzle_page sets
(cli.py line 157): frontier=None. -/
structure BrozzlerWorker where
  frontier : Option FrontierRef
deriving DecidableEq

/-- Everything brozzle_page has constructed when it reaches the browse call,
plus a count of datastore connections opened on the way (the entry point
never constructs a rethinkstuff.Rethinker, so this is 0). -/
structure SinglePageSetup where
  site : Site
  page : Page
  worker : BrozzlerWorker
  datastoreConnections : Nat
deriving DecidableEq

/-- Embedding of
`behavior_parameters = \x7b\x7d; if args.behavior_parameters: behavior_parameters = json.loads(...)`
(cli.py lines 148-150).  The json parser is external, passed as a parameter;
an absent or empty (falsy) argument leaves the empty mapping in place. -/
def behaviorParametersValue (arg : Option String)
    (jsonLoads : String → List (String × String)) : List (String × String) :=
  match arg with
  | none => []
  | some s => if s = "" then [] else jsonLoads s

/-- Embedding of the object construction in brozzle_page (cli.py lines
148-157): Site(id=-1, seed=url, ...), Page(url=url, site_id=site.id),
BrozzlerWorker(frontier=None). -/
def brozzle_page_setup (url : String) (proxy : Option String)
    (enableWarcproxFeatures : Bool) (behaviorParametersArg : Option String)
    (username password : Option String)
    (jsonLoads : String → List (String × String)) : SinglePageSetup :=
  let site : Site :=
    { id := -1, seed := url, proxy := proxy,
      enable_warcprox_features := enableWarcproxFeatures,
      behavior_parameters := behaviorParametersValue behaviorParametersArg jsonLoads,
      username := username, password := password }
  let page : Page := { url := url, site_id := site.id }
  { site := site, page := page, worker := { frontier := none },
    datastoreConnections := 0 }

/-- Outcome of the worker.brozzle_page(...) call inside the try block:
either it returns outlinks, raises brozzler.ReachedLimit, or raises some
other exception. -/
inductive BrowseOutcome where
  | success (outlinks : List String)
  | reachedLimit (msg : String)
  | otherFailure (msg : String)
deriving DecidableEq

/-- Observable result of the try/except/finally in brozzle_page. -/
structure PageRunResult where
  browserStopped : Bool
  loggedReachedLimit : Option String
  loggedOutlinks : Option (List String)
  propagatedError : Option String
deriving DecidableEq

/-- Comparison used to model Python sorted() on strings (code point
lexicographic); defined structurally so that the kernel can evaluate it. -/
def listCharCmp : List Char → List Char → Ordering
  | [], [] => Ordering.eq
  | [], _ :: _ => Ordering.lt
  | _ :: _, [] => Ordering.gt
  | a :: as, b :: bs =>
    if a.toNat < b.toNat then Ordering.lt
    else if b.toNat < a.toNat then Ordering.gt
    else listCharCmp as bs

/-- Lexicographic comparison of strings by code point, as Python and
rethinkdb compare them. -/
def strCmp (a b : String) : Ordering :=
  listCharCmp a.data b.data

/-- Boolean less-or-equal on strings derived from `strCmp`. -/
def strLeB (a b : String) : Bool :=
  match strCmp a b with
  | Ordering.gt => false
  | _ => true

instance strLeRelDec : DecidableRel (fun a b : String => strLeB a b = true) :=
  fun _ _ => instDecidableEqBool _ _

/-- Python sorted() over strings (cli.py line 174 sorts the outlinks before
printing them). -/
def sortStrings (l : List String) : List String :=
  List.insertionSort (fun a b : String => strLeB a b = true) l

/-- Embedding of the try and except and finally of brozzle_page (cli.py lines
171-178).  The finally clause runs in every case, so the browser is stopped
whether the browse succeeded, hit ReachedLimit, or failed otherwise;
ReachedLimit is logged (logging.error, line 176) and swallowed; any other
exception propagates out of the entry point after the browser stops. -/
def brozzle_page_run (outcome : BrowseOutcome) : PageRunResult :=
  match outcome with
  | BrowseOutcome.success links =>
      { browserStopped := true, loggedReachedLimit := none,
        loggedOutlinks := some (sortStrings links), propagatedError := none }
  | BrowseOutcome.reachedLimit msg =>
      { browserStopped := true,
        loggedReachedLimit := some ("reached limit " ++ msg),
        loggedOutlinks := none, propagatedError := none }
  | BrowseOutcome.otherFailure msg =>
      { browserStopped := true, loggedReachedLimit := none,
        loggedOutlinks := none, propagatedError := some msg }

/-! ## URL canonicalization (surt) and the captures lookup
(brozzler_list_captures, cli.py lines 356-419) -/

/-- Python string slicing s[:n] by code points, defined structurally so the
kernel can evaluate it. -/
def strTake (s : String) (n : Nat) : String :=
  String.mk (s.data.take n)

/-- Lowercase one ASCII character (the host normalization surt performs). -/
def lowerChar (c : Char) : Char :=
  if 65 ≤ c.toNat ∧ c.toNat ≤ 90 then Char.ofNat (c.toNat + 32) else c

/-- Split a character list at every occurrence of a separator character,
Python str.split semantics (an empty input gives one empty field). -/
def splitCharOn (sep : Char) : List Char → List (List Char)
  | [] => [[]]
  | c :: rest =>
    if c = sep then [] :: splitCharOn sep rest
    else
      match splitCharOn sep rest with
      | [] => [[c]]
      | p :: ps => (c :: p) :: ps

/-- Join character lists with a comma between fields. -/
def joinWithComma : List (List Char) → List Char
  | [] => []
  | [p] => p
  | p :: ps => p ++ ',' :: joinWithComma ps

/-- Split a url at the first occurrence of the scheme separator, returning
the characters before it and after it. -/
def splitSchemeSep : List Char → Option (List Char × List Char)
  | ':' :: '/' :: '/' :: rest => some ([], rest)
  | c :: rest =>
    match splitSchemeSep rest with
    | some p => some (c :: p.1, p.2)
    | none => none
  | [] => none

/-- Scheme, host and path of a parseable url. -/
structure ParsedUrl where
  scheme : List Char
  host : List Char
  path : List Char
deriving DecidableEq

/-- Decompose a url into scheme, host (up to the first slash after the
scheme separator) and path (the rest). -/
def parseUrl (url : String) : Option ParsedUrl :=
  match splitSchemeSep url.data with
  | some p =>
      some { scheme := p.1, host := p.2.takeWhile (fun c => c ≠ '/'),
             path := p.2.dropWhile (fun c => c ≠ '/') }
  | none => none

/-- SURT form of a host: lowercase it, reverse its dot separated labels,
join them with commas and append a trailing comma. -/
def hostToSurt (host : List Char) : List Char :=
  joinWithComma (splitCharOn '.' (host.map lowerChar)).reverse ++ [',']

/-- Modelled from the spec: the candidate key normalizer.  cli.py line 405
calls surt.surt(url, trailing_comma=True, host_massage=False,
with_scheme=True) from the external surt library, whose implementation is
not part of this repository.  Following the contract in the spec (a total,
deterministic, pure function; scheme normalized, host normalized; keys are
byte comparable and share prefixes per host), the key keeps the lowercased
scheme, encloses the lowercased, label reversed, comma joined host with a
trailing comma in parentheses, and appends the path unchanged, for example
http://(com,example,)/a.  A url without a scheme separator is returned
unchanged. -/
def surt (url : String) : String :=
  match parseUrl url with
  | some p =>
      String.mk ((p.scheme.map lowerChar) ++ "://(".data ++ hostToSurt p.host
        ++ ")".data ++ p.path)
  | none => url

/-- Boolean test for policy equivalence of two urls: both parse and agree on
the scheme and host up to ASCII case and on the path exactly, or neither
parses and they are identical. -/
def policyEquivB (u v : String) : Bool :=
  match parseUrl u, parseUrl v with
  | some p, some q =>
      decide (p.scheme.map lowerChar = q.scheme.map lowerChar) &&
      decide (p.host.map lowerChar = q.host.map lowerChar) &&
      decide (p.path = q.path)
  | none, none => decide (u = v)
  | _, _ => false

/-- One row of the rethinkdb captures table, restricted to the fields the
lookup touches: the canonical surt key, the abbreviated (truncated) key the
compound index is built on, and the timestamp. -/
structure Capture where
  canon_surt : String
  abbr_canon_surt : String
  timestamp : Nat
deriving DecidableEq

/-- A position in the timestamp component of the compound index
abbr_canon_surt_timestamp: rethinkdb.minval sorts below every value and
rethinkdb.maxval above every value. -/
inductive IdxBoundTs where
  | minval
  | actual (t : Nat)
  | maxval
deriving DecidableEq

/-- Ordering on the timestamp component including the sentinels. -/
def idxTsCmpOrd : IdxBoundTs → IdxBoundTs → Ordering
  | IdxBoundTs.minval, IdxBoundTs.minval => Ordering.eq
  | IdxBoundTs.minval, _ => Ordering.lt
  | _, IdxBoundTs.minval => Ordering.gt
  | IdxBoundTs.maxval, IdxBoundTs.maxval => Ordering.eq
  | IdxBoundTs.maxval, _ => Ordering.gt
  | _, IdxBoundTs.maxval => Ordering.lt
  | IdxBoundTs.actual a, IdxBoundTs.actual b =>
    if a < b then Ordering.lt else if b < a then Ordering.gt else Ordering.eq

/-- Lexicographic ordering on compound index values [abbr_canon_surt,
timestamp]. -/
def idxKeyCmp (a b : String × IdxBoundTs) : Ordering :=
  match strCmp a.1 b.1 with
  | Ordering.eq => idxTsCmpOrd a.2 b.2
  | o => o

/-- Embedding of the range restriction
between([key[:150], minval], [key[:150]+'!', maxval],
index='abbr_canon_surt_timestamp') at cli.py lines 408-411, with the default
bounds (left closed, right open). -/
def betweenBound (key : String) (c : Capture) : Bool :=
  decide (idxKeyCmp (strTake key 150, IdxBoundTs.minval)
      (c.abbr_canon_surt, IdxBoundTs.actual c.timestamp) ≠ Ordering.gt) &&
  decide (idxKeyCmp (c.abbr_canon_surt, IdxBoundTs.actual c.timestamp)
      (strTake key 150 ++ "!", IdxBoundTs.maxval) = Ordering.lt)

/-- The order the index abbr_canon_surt_timestamp sorts rows in, used by the
order_by at cli.py line 412. -/
def captureIdxLe (c d : Capture) : Bool :=
  match strCmp c.abbr_canon_surt d.abbr_canon_surt with
  | Ordering.lt => true
  | Ordering.gt => false
  | Ordering.eq => c.timestamp ≤ d.timestamp

instance captureIdxLeRelDec :
    DecidableRel (fun c d : Capture => captureIdxLe c d = true) :=
  fun _ _ => instDecidableEqBool _ _

/-- Embedding of the reql chain at cli.py lines 408-415 run against a table
of captures: between on the index, then order_by on the same index, then the
filter keeping rows whose canon_surt is both at least and at most the key. -/
def brozzler_list_captures_query (key : String) (captures : List Capture) :
    List Capture :=
  (List.insertionSort (fun c d : Capture => captureIdxLe c d = true)
      (captures.filter (betweenBound key))).filter
    (fun c => strLeB key c.canon_surt && strLeB c.canon_surt key)

/-- Outcome of one brozzler_list_captures invocation: the sha1 branch raises
Exception at cli.py line 386, the url branch prints the query results. -/
inductive ListCapturesOutcome where
  | raisedNotImplemented (msg : String)
  | printedResults (rows : List Capture)
deriving DecidableEq

/-- Result of one brozzler_list_captures invocation together with the number
of store queries it issued. -/
structure ListCapturesRun where
  outcome : ListCapturesOutcome
  storeQueries : Nat
deriving DecidableEq

/-- Embedding of brozzler_list_captures (cli.py lines 385-419): when the
first five characters of the argument are sha1: it raises before building
any query; otherwise it normalizes the url with surt and runs the range
query. -/
def brozzler_list_captures (url_or_sha1 : String) (captures : List Capture) :
    ListCapturesRun :=
  if strTake url_or_sha1 5 = "sha1:" then
    { outcome := ListCapturesOutcome.raisedNotImplemented "not implemented",
      storeQueries := 0 }
  else
    { outcome := ListCapturesOutcome.printedResults
        (brozzler_list_captures_query (surt url_or_sha1) captures),
      storeQueries := 1 }

/-! ## The SIGQUIT diagnostic dump (dump_state, cli.py lines 293-314)

dump_state first replaces the SIGQUIT handler with signal.SIG_IGN, then in a
try block walks sys._current_frames(), pairs each frame with the thread of
the same ident from threading.enumerate(), and logs one message holding, for
every frame, str(thread) followed by the joined formatted stack; any
exception from the body is caught (except BaseException) and logged as an
error; the finally clause re-registers dump_state as the SIGQUIT handler.
Note that the subscript threads[ident] raises KeyError when the ident is
absent from the dictionary, which makes the textual else arm at cli.py line
303 unreachable (Thread objects are always truthy). -/

/-- What the process has registered for SIGQUIT. -/
inductive SigHandler where
  | dumpStateHandler
  | sigIgn
deriving DecidableEq

/-- The process state dump_state can observe or change: the registered
SIGQUIT handler, the stop requested condition owned by the shutdown
machinery, and the log. -/
structure WorkerProcState where
  sigquitHandler : SigHandler
  stopRequested : Bool
  logLines : List String
deriving DecidableEq

/-- One entry of the dictionary built from threading.enumerate(): a thread
ident and the rendering str(thread). -/
structure ThreadInfo where
  ident : Nat
  descr : String
deriving DecidableEq

/-- One entry of sys._current_frames(): a thread ident and the formatted
stack lines traceback.format_stack returns for its frame. -/
structure FrameInfo where
  ident : Nat
  stack : List String
deriving DecidableEq

/-- The Python exception that can escape the loop body. -/
inductive PyExc where
  | keyError
deriving DecidableEq

/-- Rendering of a caught exception for the logging.error call. -/
def pyExcMessage : PyExc → String
  | PyExc.keyError => "KeyError"

/-- Embedding of the state_strs loop (cli.py lines 296-305): for each frame,
look the ident up in the threads dictionary (raising KeyError when absent),
append str(thread) and the joined stack.  The else arm appending
an ident placeholder is dead code, see above. -/
def buildStateStrs (threads : List ThreadInfo) :
    List FrameInfo → Except PyExc (List String)
  | [] => Except.ok []
  | f :: rest =>
    match threads.find? (fun t => t.ident == f.ident) with
    | some t =>
      match buildStateStrs threads rest with
      | Except.ok strs => Except.ok (t.descr :: String.join f.stack :: strs)
      | Except.error e => Except.error e
    | none => Except.error PyExc.keyError

/-- The single message the dump logs (cli.py lines 306-308). -/
def dumpMessage (signum : Nat) (strs : List String) : String :=
  "dumping state (caught signal " ++ toString signum ++ ")\n"
    ++ String.intercalate "\n" strs

/-- The message logged when the dump body raises (cli.py line 310). -/
def dumpErrorMessage (e : PyExc) : String :=
  "exception dumping state: " ++ pyExcMessage e

/-- First statement of dump_state (cli.py line 294): disable SIGQUIT
handling. -/
def dumpDisable (s : WorkerProcState) : WorkerProcState :=
  { s with sigquitHandler := SigHandler.sigIgn }

/-- The try/except part of dump_state (cli.py lines 295-310): build the
state strings and log them, or log the caught exception. -/
def dumpBody (signum : Nat) (threads : List ThreadInfo)
    (frames : List FrameInfo) (s : WorkerProcState) : WorkerProcState :=
  match buildStateStrs threads frames with
  | Except.ok strs =>
      { s with logLines := s.logLines ++ [dumpMessage signum strs] }
  | Except.error e =>
      { s with logLines := s.logLines ++ [dumpErrorMessage e] }

/-- The finally clause of dump_state (cli.py lines 311-312): re-register
dump_state for SIGQUIT. -/
def dumpRearm (s : WorkerProcState) : WorkerProcState :=
  { s with sigquitHandler := SigHandler.dumpStateHandler }

/-- Embedding of the whole dump_state handler (cli.py lines 293-312). -/
def dump_state (signum : Nat) (threads : List ThreadInfo)
    (frames : List FrameInfo) (s : WorkerProcState) : WorkerProcState :=
  dumpRearm (dumpBody signum threads frames (dumpDisable s))

/-- Whether a SIGQUIT delivered to a process with the given registered
handler triggers a dump: only the dump_state handler does, SIG_IGN ignores
the signal. -/
def sigquitTriggersDump (h : SigHandler) : Bool :=
  h == SigHandler.dumpStateHandler

/-! ## Argument definitions of the entry points (cli.py lines 58-75,
267-283, 209-246)

The add_argument calls are embedded as records.  The shared logging and
version options added by _add_common_options are orthogonal to every claim
and are omitted from the tables.  The chrome executable default is computed
from the environment by suggest_default_chrome_exe and is modelled as
unspecified. -/

/-- One argparse add_argument call: the option strings, the destination, the
default (a string or None) and whether the action is store_true. -/
structure ArgSpec where
  flags : List String
  dest : String
  defaultVal : Option String
  storesTrue : Bool
deriving DecidableEq

/-- Embedding of _add_rethinkdb_options (cli.py lines 58-66). -/
def rethinkdbOptionSpecs : List ArgSpec :=
  [{ flags := ["--rethinkdb-servers"], dest := "rethinkdb_servers",
     defaultVal := some "localhost", storesTrue := false },
   { flags := ["--rethinkdb-db"], dest := "rethinkdb_db",
     defaultVal := some "brozzler", storesTrue := false }]

/-- Embedding of _add_proxy_options (cli.py lines 68-75). -/
def proxyOptionSpecs : List ArgSpec :=
  [{ flags := ["--proxy"], dest := "proxy", defaultVal := none,
     storesTrue := false },
   { flags := ["--enable-warcprox-features"], dest := "enable_warcprox_features",
     defaultVal := none, storesTrue := true }]

/-- Embedding of the options of brozzler_worker (cli.py lines 272-283). -/
def workerArgSpecs : List ArgSpec :=
  rethinkdbOptionSpecs ++
  [{ flags := ["-e", "--chrome-exe"], dest := "chrome_exe",
     defaultVal := none, storesTrue := false },
   { flags := ["-n", "--max-browsers"], dest := "max_browsers",
     defaultVal := some "1", storesTrue := false }]

/-- Embedding of the options of brozzler_new_site (cli.py lines 219-246),
positional seed aside. -/
def newSiteArgSpecs : List ArgSpec :=
  rethinkdbOptionSpecs ++ proxyOptionSpecs ++
  [{ flags := ["--time-limit"], dest := "time_limit", defaultVal := none,
     storesTrue := false },
   { flags := ["--ignore-robots"], dest := "ignore_robots",
     defaultVal := none, storesTrue := true },
   { flags := ["--warcprox-meta"], dest := "warcprox_meta",
     defaultVal := none, storesTrue := false },
   { flags := ["--behavior-parameters"], dest := "behavior_parameters",
     defaultVal := none, storesTrue := false },
   { flags := ["--username"], dest := "username", defaultVal := none,
     storesTrue := false },
   { flags := ["--password"], dest := "password", defaultVal := none,
     storesTrue := false }]

/-- Embedding of Python str.split(sep) for one character separators, used at
the rethinkdb_servers.split call sites (cli.py lines 200, 263, 319, 377). -/
def splitOnComma (s : String) : List String :=
  (splitCharOn ',' s.data).map String.mk

/-- Numeric value of an ASCII digit. -/
def digitVal (c : Char) : Option Nat :=
  if 48 ≤ c.toNat ∧ c.toNat ≤ 57 then some (c.toNat - 48) else none

/-- Accumulator pass over the digits of a decimal literal; none both for an
empty literal and for a non digit character. -/
def parseNatAux : Option Nat → List Char → Option Nat
  | acc, [] => acc
  | acc, c :: rest =>
    match acc, digitVal c with
    | some a, some d => parseNatAux (some (10 * a + d)) rest
    | none, some d => parseNatAux (some d) rest
    | _, none => none

/-- Embedding of the Python int() conversion on decimal literals with an
optional leading minus sign; none models the ValueError int() raises on a
malformed literal. -/
def pythonInt (s : String) : Option Int :=
  match s.data with
  | '-' :: rest => (parseNatAux none rest).map (fun n => -(n : Int))
  | l => (parseNatAux none l).map (fun n => (n : Int))

/-- Effective max browser count: argparse substitutes the default string 1
when the flag is absent, and the use site int(args.max_browsers) at cli.py
line 323 parses it. -/
def maxBrowsersValue (arg : Option String) : Option Int :=
  pythonInt (arg.getD "1")

/-- Effective per site time limit (cli.py line 253):
int(args.time_limit) if args.time_limit else None.  An absent flag and an
empty (falsy) string both mean no limit; the outer Option models the
exception a malformed literal raises. -/
def timeLimitValue (arg : Option String) : Option (Option Int) :=
  match arg with
  | none => some none
  | some s => if s = "" then some none else (pythonInt s).map some

/-- The six operational flags named by the specification: store endpoint
list, store namespace, max concurrent browsers, per site time limit, robots
policy override, proxy endpoint. -/
def specifiedOperationalFlags : List String :=
  ["--rethinkdb-servers", "--rethinkdb-db", "--max-browsers", "--time-limit",
   "--ignore-robots", "--proxy"]

/-! ## Concrete fixtures used by the closed example theorems -/

/-- A captures table row whose canonical key is the key of
http://example.com/a. -/
def exampleCapture : Capture :=
  { canon_surt := "http://(com,example,)/a",
    abbr_canon_surt := "http://(com,example,)/a", timestamp := 3 }

/-- A captures table row with an unrelated key. -/
def exampleCaptureK : Capture :=
  { canon_surt := "k", abbr_canon_surt := "k", timestamp := 0 }

/-- A frame whose ident is absent from the example thread dictionary. -/
def exampleFrame7 : FrameInfo :=
  { ident := 7, stack := ["frame line"] }

/-- A thread dictionary entry. -/
def exampleThread1 : ThreadInfo :=
  { ident := 1, descr := "MainThread" }

/-- A frame belonging to the example thread. -/
def exampleFrame1 : FrameInfo :=
  { ident := 1, stack := ["stack line"] }

/-- A process state as brozzler_worker leaves it after registering the
handlers. -/
def exampleProcState : WorkerProcState :=
  { sigquitHandler := SigHandler.dumpStateHandler, stopRequested := false,
    logLines := [] }

/-- A process state with one existing log line. -/
def exampleProcStateLog : WorkerProcState :=
  { sigquitHandler := SigHandler.dumpStateHandler, stopRequested := false,
    logLines := ["old line"] }

/-! ## Helper lemmas about the lexicographic comparisons -/

theorem listCharCmp_swap (as : List Char) :
    ∀ bs, listCharCmp bs as = (listCharCmp as bs).swap := by
  induction as with
  | nil =>
    intro bs
    cases bs <;> rfl
  | cons a as ih =>
    intro bs
    cases bs with
    | nil => rfl
    | cons b bs =>
      simp only [listCharCmp]
      by_cases h1 : a.toNat < b.toNat
      · rw [if_neg (Nat.lt_asymm h1), if_pos h1, if_pos h1]
        rfl
      · by_cases h2 : b.toNat < a.toNat
        · rw [if_pos h2, if_neg h1, if_pos h2]
          rfl
        · rw [if_neg h2, if_neg h1, if_neg h1, if_neg h2, ih bs]

theorem listCharCmp_eq_iff (as : List Char) :
    ∀ bs, listCharCmp as bs = Ordering.eq ↔ as = bs := by
  induction as with
  | nil =>
    intro bs
    cases bs <;> simp [listCharCmp]
  | cons a as ih =>
    intro bs
    cases bs with
    | nil => simp [listCharCmp]
    | cons b bs =>
      simp only [listCharCmp]
      by_cases h1 : a.toNat < b.toNat
      · rw [if_pos h1]
        constructor
        · intro h
          exact absurd h (by decide)
        · intro h
          injection h with h2 h3
          rw [h2] at h1
          exact absurd h1 (Nat.lt_irrefl _)
      · by_cases h2 : b.toNat < a.toNat
        · rw [if_neg h1, if_pos h2]
          constructor
          · intro h
            exact absurd h (by decide)
          · intro h
            injection h with h3 h4
            rw [h3] at h2
            exact absurd h2 (Nat.lt_irrefl _)
        · have hab : a = b :=
            Char.ext (UInt32.ext
              (Nat.le_antisymm (Nat.not_lt.mp h2) (Nat.not_lt.mp h1)))
          rw [if_neg h1, if_neg h2, ih bs]
          subst hab
          simp

theorem listCharCmp_lt_trans (as : List Char) :
    ∀ bs cs, listCharCmp as bs = Ordering.lt →
      listCharCmp bs cs = Ordering.lt → listCharCmp as cs = Ordering.lt := by
  induction as with
  | nil =>
    intro bs cs h1 h2
    cases bs with
    | nil => exact absurd h1 (by decide)
    | cons b bs =>
      cases cs with
      | nil => simp [listCharCmp] at h2
      | cons c cs => rfl
  | cons a as ih =>
    intro bs cs h1 h2
    cases bs with
    | nil => simp [listCharCmp] at h1
    | cons b bs =>
      cases cs with
      | nil => simp [listCharCmp] at h2
      | cons c cs =>
        simp only [listCharCmp] at h1 h2 ⊢
        by_cases hab : a.toNat < b.toNat
        · by_cases hbc : b.toNat < c.toNat
          · rw [if_pos (Nat.lt_trans hab hbc)]
          · rw [if_neg hbc] at h2
            by_cases hcb : c.toNat < b.toNat
            · rw [if_pos hcb] at h2
              exact absurd h2 (by decide)
            · have hac : a.toNat < c.toNat := by omega
              rw [if_pos hac]
        · rw [if_neg hab] at h1
          by_cases hba : b.toNat < a.toNat
          · rw [if_pos hba] at h1
            exact absurd h1 (by decide)
          · rw [if_neg hba] at h1
            by_cases hbc : b.toNat < c.toNat
            · have hac : a.toNat < c.toNat := by omega
              rw [if_pos hac]
            · rw [if_neg hbc] at h2
              by_cases hcb : c.toNat < b.toNat
              · rw [if_pos hcb] at h2
                exact absurd h2 (by decide)
              · rw [if_neg hcb] at h2
                have h3 : ¬ a.toNat < c.toNat := by omega
                have h4 : ¬ c.toNat < a.toNat := by omega
                rw [if_neg h3, if_neg h4]
                exact ih bs cs h1 h2

theorem string_eq_of_data_eq {a b : String} (h : a.data = b.data) : a = b :=
  congrArg String.mk h

theorem strCmp_eq_iff (a b : String) : strCmp a b = Ordering.eq ↔ a = b := by
  unfold strCmp
  rw [listCharCmp_eq_iff]
  constructor
  · exact string_eq_of_data_eq
  · intro h
    rw [h]

theorem strCmp_swap (a b : String) : strCmp b a = (strCmp a b).swap :=
  listCharCmp_swap a.data b.data

theorem strLeB_antisymm {a b : String} (h1 : strLeB a b = true)
    (h2 : strLeB b a = true) : a = b := by
  cases hab : strCmp a b with
  | eq => exact (strCmp_eq_iff a b).mp hab
  | lt =>
    have hba : strCmp b a = Ordering.gt := by
      rw [strCmp_swap a b, hab]
      rfl
    simp [strLeB, hba] at h2
  | gt => simp [strLeB, hab] at h1

theorem captureIdxLe_trans (c d e : Capture) (h1 : captureIdxLe c d = true)
    (h2 : captureIdxLe d e = true) : captureIdxLe c e = true := by
  simp only [captureIdxLe] at h1 h2 ⊢
  cases hcd : strCmp c.abbr_canon_surt d.abbr_canon_surt with
  | gt =>
    rw [hcd] at h1
    simp at h1
  | lt =>
    cases hde : strCmp d.abbr_canon_surt e.abbr_canon_surt with
    | gt =>
      rw [hde] at h2
      simp at h2
    | lt =>
      have hce : strCmp c.abbr_canon_surt e.abbr_canon_surt = Ordering.lt :=
        listCharCmp_lt_trans _ _ _ hcd hde
      rw [hce]
    | eq =>
      have hd : d.abbr_canon_surt = e.abbr_canon_surt :=
        (strCmp_eq_iff _ _).mp hde
      rw [← hd, hcd]
  | eq =>
    rw [hcd] at h1
    have hc : c.abbr_canon_surt = d.abbr_canon_surt :=
      (strCmp_eq_iff _ _).mp hcd
    cases hde : strCmp d.abbr_canon_surt e.abbr_canon_surt with
    | gt =>
      rw [hde] at h2
      simp at h2
    | lt =>
      rw [hc, hde]
    | eq =>
      rw [hde] at h2
      rw [hc, hde]
      simp only [decide_eq_true_eq] at h1 h2 ⊢
      exact Nat.le_trans h1 h2

theorem captureIdxLe_total (c d : Capture) :
    captureIdxLe c d = true ∨ captureIdxLe d c = true := by
  cases hcd : strCmp c.abbr_canon_surt d.abbr_canon_surt with
  | lt =>
    left
    simp [captureIdxLe, hcd]
  | gt =>
    right
    have hdc : strCmp d.abbr_canon_surt c.abbr_canon_surt = Ordering.lt := by
      rw [strCmp_swap, hcd]
      rfl
    simp [captureIdxLe, hdc]
  | eq =>
    have hab := (strCmp_eq_iff _ _).mp hcd
    have hba : strCmp d.abbr_canon_surt c.abbr_canon_surt = Ordering.eq :=
      (strCmp_eq_iff _ _).mpr hab.symm
    rcases Nat.le_total c.timestamp d.timestamp with h | h
    · left
      simp [captureIdxLe, hcd, h]
    · right
      simp [captureIdxLe, hba, h]

/-- The order_by output is sorted by the index relation. -/
theorem sorted_by_captureIdx (l : List Capture) :
    (List.insertionSort (fun c d : Capture => captureIdxLe c d = true) l).Pairwise
      (fun c d => captureIdxLe c d = true) :=
  @List.sorted_insertionSort Capture (fun c d => captureIdxLe c d = true)
    captureIdxLeRelDec ⟨captureIdxLe_total⟩
    ⟨fun a b c h1 h2 => captureIdxLe_trans a b c h1 h2⟩ l

theorem buildStateStrs_ok (threads : List ThreadInfo) :
    ∀ frames : List FrameInfo,
      (∀ f ∈ frames, (threads.find? (fun t => t.ident == f.ident)).isSome = true) →
      ∃ strs, buildStateStrs threads frames = Except.ok strs ∧
        ∀ f ∈ frames, ∀ t,
          threads.find? (fun t2 => t2.ident == f.ident) = some t →
          t.descr ∈ strs ∧ String.join f.stack ∈ strs := by
  intro frames
  induction frames with
  | nil =>
    intro _
    refine ⟨[], rfl, ?_⟩
    intro f hf
    cases hf
  | cons f fs ih =>
    intro h
    have hf := h f (List.mem_cons_self f fs)
    obtain ⟨t0, ht0⟩ := Option.isSome_iff_exists.mp hf
    obtain ⟨strs, hok, hmem⟩ := ih (fun g hg => h g (List.mem_cons_of_mem f hg))
    refine ⟨t0.descr :: String.join f.stack :: strs, ?_, ?_⟩
    · simp [buildStateStrs, ht0, hok]
    · intro g hg t ht
      rcases List.mem_cons.mp hg with hg1 | hg2
      · subst hg1
        rw [ht0] at ht
        have hte : t0 = t := Option.some.inj ht
        subst hte
        exact ⟨List.mem_cons_self _ _,
          List.mem_cons_of_mem _ (List.mem_cons_self _ _)⟩
      · have hm := hmem g hg2 t ht
        exact ⟨List.mem_cons_of_mem _ (List.mem_cons_of_mem _ hm.1),
          List.mem_cons_of_mem _ (List.mem_cons_of_mem _ hm.2)⟩

/-! ## The claims -/

/-- C1 counterexample: the claim says every stop signal after the first is a
no-op, but the sigterm handler raises ShutdownRequested unconditionally: in
the delivery sequence SIGTERM, SIGTERM the second delivery again raises
ShutdownRequested rather than doing nothing. -/
theorem c1_second_stop_signal_not_noop :
    (deliverStopSignals [StopSig.SIGTERM, StopSig.SIGTERM])[1]? ≠
      some HandlerEffect.noop ∧
    (deliverStopSignals [StopSig.SIGTERM, StopSig.SIGTERM])[1]? =
      some (HandlerEffect.raiseShutdownRequested
        "shutdown requested (caught SIGTERM)") := by
  decide

/-- C1 amended: the worker entry point installs stateless SIGTERM and SIGINT
handlers that raise ShutdownRequested on every stop signal received;
there is no process wide set-once stop flag in the entry point, so every
delivery, first or later, raises ShutdownRequested and none is a no-op. -/
theorem c1_every_stop_signal_raises (sig : StopSig) :
    deliverStopSignal sig ≠ HandlerEffect.noop ∧
    ∃ msg, deliverStopSignal sig =
      HandlerEffect.raiseShutdownRequested msg := by
  cases sig
  · exact ⟨by decide, "shutdown requested (caught SIGTERM)", rfl⟩
  · exact ⟨by decide, "shutdown requested (caught SIGINT)", rfl⟩

/-- C2: brozzler-new-job exits with code 1 exactly when the job configuration
is invalid, printing the field to problem errors object in that case, and
exits with code 0 otherwise. -/
theorem c2_new_job_exit_codes (o : Except (List (String × String)) Unit) :
    ((brozzler_new_job o).exitCode = 1 ↔ ∃ errs, o = Except.error errs) ∧
    ((brozzler_new_job o).exitCode = 0 ↔ o = Except.ok ()) ∧
    (∀ errs, o = Except.error errs →
      (brozzler_new_job o).printedValidationErrors = some errs) := by
  cases o with
  | error e => simp [brozzler_new_job]
  | ok u =>
    cases u
    simp [brozzler_new_job]

/-- C2 witness: a concrete invalid job configuration exits 1 with its errors
printed, and a concrete valid one exits 0. -/
theorem c2_new_job_exit_codes_witness :
    (((brozzler_new_job (Except.error [("seeds", "required field")])).exitCode = 1 ↔
        ∃ errs, (Except.error [("seeds", "required field")] :
          Except (List (String × String)) Unit) = Except.error errs) ∧
     ((brozzler_new_job (Except.error [("seeds", "required field")])).exitCode = 0 ↔
        (Except.error [("seeds", "required field")] :
          Except (List (String × String)) Unit) = Except.ok ()) ∧
     (∀ errs, (Except.error [("seeds", "required field")] :
          Except (List (String × String)) Unit) = Except.error errs →
        (brozzler_new_job
          (Except.error [("seeds", "required field")])).printedValidationErrors =
          some errs)) ∧
    (brozzler_new_job (Except.ok ())).exitCode = 0 :=
  ⟨c2_new_job_exit_codes (Except.error [("seeds", "required field")]), by decide⟩

/-- C3: for a url argument, the lookup normalizes the url to a canonical key,
the store query is the between range bounded to the 150 character prefix of
the key on the abbr_canon_surt_timestamp index, every returned row has
canon_surt equal to the key, and the returned rows are ordered by that
index. -/
theorem c3_list_captures_url_query (url : String) (captures : List Capture)
    (hnotsha : strTake url 5 ≠ "sha1:") :
    ∃ rows,
      (brozzler_list_captures url captures).outcome =
        ListCapturesOutcome.printedResults rows ∧
      rows = brozzler_list_captures_query (surt url) captures ∧
      (∀ c ∈ rows, c.canon_surt = surt url) ∧
      (∀ c ∈ rows, c ∈ captures ∧ betweenBound (surt url) c = true) ∧
      rows.Pairwise (fun c d => captureIdxLe c d = true) := by
  refine ⟨brozzler_list_captures_query (surt url) captures, ?_, rfl, ?_, ?_, ?_⟩
  · simp [brozzler_list_captures, hnotsha]
  · intro c hc
    have hfil := List.mem_filter.mp hc
    have h1 := (Bool.and_eq_true _ _).mp hfil.2
    exact (strLeB_antisymm h1.1 h1.2).symm
  · intro c hc
    have hfil := List.mem_filter.mp hc
    have hmem : c ∈ captures.filter (betweenBound (surt url)) :=
      (List.perm_insertionSort _ _).mem_iff.mp hfil.1
    have h2 := List.mem_filter.mp hmem
    exact ⟨h2.1, h2.2⟩
  · exact List.Pairwise.filter _ (sorted_by_captureIdx _)

/-- C3 witness: the lookup run on a concrete url against a concrete captures
table with one matching and one unrelated row. -/
theorem c3_list_captures_url_query_witness :
    strTake "http://example.com/a" 5 ≠ "sha1:" ∧
    ∃ rows,
      (brozzler_list_captures "http://example.com/a"
        [exampleCapture, exampleCaptureK]).outcome =
        ListCapturesOutcome.printedResults rows ∧
      rows = brozzler_list_captures_query (surt "http://example.com/a")
        [exampleCapture, exampleCaptureK] ∧
      (∀ c ∈ rows, c.canon_surt = surt "http://example.com/a") ∧
      (∀ c ∈ rows, c ∈ [exampleCapture, exampleCaptureK] ∧
        betweenBound (surt "http://example.com/a") c = true) ∧
      rows.Pairwise (fun c d => captureIdxLe c d = true) :=
  ⟨by decide, c3_list_captures_url_query "http://example.com/a"
    [exampleCapture, exampleCaptureK] (by decide)⟩

/-- C4: the dump_state handler disables SIGQUIT handling as its first action,
the handling stays disabled for the whole body (so a SIGQUIT delivered while
the dump runs never triggers a nested dump), and the finally clause re-arms
the dump_state handler afterwards, also when the dump body raises. -/
theorem c4_dump_state_not_reentrant (signum : Nat) (threads : List ThreadInfo)
    (frames : List FrameInfo) (s : WorkerProcState) :
    (dumpDisable s).sigquitHandler = SigHandler.sigIgn ∧
    (dumpBody signum threads frames (dumpDisable s)).sigquitHandler =
      SigHandler.sigIgn ∧
    sigquitTriggersDump
      ((dumpBody signum threads frames (dumpDisable s)).sigquitHandler) = false ∧
    dump_state signum threads frames s =
      dumpRearm (dumpBody signum threads frames (dumpDisable s)) ∧
    (dump_state signum threads frames s).sigquitHandler =
      SigHandler.dumpStateHandler ∧
    (∀ e, buildStateStrs threads frames = Except.error e →
      (dump_state signum threads frames s).sigquitHandler =
        SigHandler.dumpStateHandler) := by
  refine ⟨rfl, ?_, ?_, rfl, rfl, fun e _ => rfl⟩
  · unfold dumpBody
    cases buildStateStrs threads frames <;> rfl
  · unfold sigquitTriggersDump dumpBody
    cases buildStateStrs threads frames <;> rfl

/-- C4 witness: the handler run on a concrete state where the dump body does
raise (a frame ident absent from the threads dictionary raises KeyError), so
the re-arming through the finally clause is exercised on the exception
path. -/
theorem c4_dump_state_not_reentrant_witness :
    buildStateStrs [] [exampleFrame7] = Except.error PyExc.keyError ∧
    ((dumpDisable exampleProcState).sigquitHandler = SigHandler.sigIgn ∧
    (dumpBody 3 [] [exampleFrame7]
        (dumpDisable exampleProcState)).sigquitHandler = SigHandler.sigIgn ∧
    sigquitTriggersDump
      ((dumpBody 3 [] [exampleFrame7]
        (dumpDisable exampleProcState)).sigquitHandler) = false ∧
    dump_state 3 [] [exampleFrame7] exampleProcState =
      dumpRearm (dumpBody 3 [] [exampleFrame7] (dumpDisable exampleProcState)) ∧
    (dump_state 3 [] [exampleFrame7] exampleProcState).sigquitHandler =
      SigHandler.dumpStateHandler ∧
    (∀ e, buildStateStrs [] [exampleFrame7] = Except.error e →
      (dump_state 3 [] [exampleFrame7] exampleProcState).sigquitHandler =
        SigHandler.dumpStateHandler)) :=
  ⟨rfl, c4_dump_state_not_reentrant 3 [] [exampleFrame7] exampleProcState⟩

/-- C5: when every current frame belongs to a known thread, the dump logs one
message containing the rendering and the joined stack of every live thread,
and the only state change besides that log line is the SIGQUIT handler swap;
in particular the stop requested condition is unchanged. -/
theorem c5_dump_state_reports_and_preserves (signum : Nat)
    (threads : List ThreadInfo) (frames : List FrameInfo) (s : WorkerProcState)
    (h : ∀ f ∈ frames, (threads.find? (fun t => t.ident == f.ident)).isSome = true) :
    ∃ strs, buildStateStrs threads frames = Except.ok strs ∧
      (∀ f ∈ frames, ∀ t,
        threads.find? (fun t2 => t2.ident == f.ident) = some t →
        t.descr ∈ strs ∧ String.join f.stack ∈ strs) ∧
      dump_state signum threads frames s =
        { s with sigquitHandler := SigHandler.dumpStateHandler,
                 logLines := s.logLines ++ [dumpMessage signum strs] } ∧
      (dump_state signum threads frames s).stopRequested = s.stopRequested := by
  obtain ⟨strs, hok, hmem⟩ := buildStateStrs_ok threads frames h
  rcases s with ⟨sq, st, ll⟩
  refine ⟨strs, hok, hmem, ?_, ?_⟩
  · simp [dump_state, dumpRearm, dumpBody, dumpDisable, hok]
  · simp [dump_state, dumpRearm, dumpBody, dumpDisable, hok]

/-- C5 witness: the dump run on one concrete live thread with one frame and a
concrete starting state. -/
theorem c5_dump_state_reports_and_preserves_witness :
    (∀ f ∈ [exampleFrame1],
      (([exampleThread1]).find? (fun t => t.ident == f.ident)).isSome = true) ∧
    ∃ strs,
      buildStateStrs [exampleThread1] [exampleFrame1] = Except.ok strs ∧
      (∀ f ∈ [exampleFrame1], ∀ t,
        ([exampleThread1]).find? (fun t2 => t2.ident == f.ident) = some t →
        t.descr ∈ strs ∧ String.join f.stack ∈ strs) ∧
      dump_state 3 [exampleThread1] [exampleFrame1] exampleProcStateLog =
        { exampleProcStateLog with
          sigquitHandler := SigHandler.dumpStateHandler,
          logLines := exampleProcStateLog.logLines ++ [dumpMessage 3 strs] } ∧
      (dump_state 3 [exampleThread1] [exampleFrame1]
        exampleProcStateLog).stopRequested = exampleProcStateLog.stopRequested :=
  ⟨by decide, c5_dump_state_reports_and_preserves 3 [exampleThread1]
    [exampleFrame1] exampleProcStateLog (by decide)⟩

/-- C6: the single page entry point stops the browser in every case, and when
the browse raises ReachedLimit the condition is logged and not propagated out
of the entry point. -/
theorem c6_reached_limit_handled (outcome : BrowseOutcome) :
    (brozzle_page_run outcome).browserStopped = true ∧
    (∀ msg, outcome = BrowseOutcome.reachedLimit msg →
      (brozzle_page_run outcome).propagatedError = none ∧
      (brozzle_page_run outcome).loggedReachedLimit =
        some ("reached limit " ++ msg)) ∧
    (∀ links, outcome = BrowseOutcome.success links →
      (brozzle_page_run outcome).propagatedError = none) := by
  cases outcome <;> simp [brozzle_page_run]

/-- C6 witness: a concrete ReachedLimit outcome is swallowed and logged with
the browser stopped. -/
theorem c6_reached_limit_handled_witness :
    (brozzle_page_run (BrowseOutcome.reachedLimit "example limit")).browserStopped =
      true ∧
    (∀ msg, BrowseOutcome.reachedLimit "example limit" =
        BrowseOutcome.reachedLimit msg →
      (brozzle_page_run (BrowseOutcome.reachedLimit "example limit")).propagatedError =
        none ∧
      (brozzle_page_run
          (BrowseOutcome.reachedLimit "example limit")).loggedReachedLimit =
        some ("reached limit " ++ msg)) ∧
    (∀ links, BrowseOutcome.reachedLimit "example limit" =
        BrowseOutcome.success links →
      (brozzle_page_run
          (BrowseOutcome.reachedLimit "example limit")).propagatedError = none) :=
  c6_reached_limit_handled (BrowseOutcome.reachedLimit "example limit")

/-- C7: the candidate key normalizer (modelled from the spec, the surt
library being external to this repository) is deterministic, and policy
equivalent urls, in particular urls differing only in host case, normalize
to the same key. -/
theorem c7_surt_deterministic_and_case_insensitive (u v : String)
    (h : policyEquivB u v = true) :
    surt u = surt v ∧ surt u = surt u := by
  refine ⟨?_, rfl⟩
  unfold policyEquivB at h
  unfold surt
  cases hu : parseUrl u with
  | none =>
    cases hv : parseUrl v with
    | none =>
      rw [hu, hv] at h
      exact of_decide_eq_true h
    | some q =>
      rw [hu, hv] at h
      simp at h
  | some p =>
    cases hv : parseUrl v with
    | none =>
      rw [hu, hv] at h
      simp at h
    | some q =>
      rw [hu, hv] at h
      have h3 := (Bool.and_eq_true _ _).mp h
      have h4 := (Bool.and_eq_true _ _).mp h3.1
      have hs : p.scheme.map lowerChar = q.scheme.map lowerChar :=
        of_decide_eq_true h4.1
      have hh : p.host.map lowerChar = q.host.map lowerChar :=
        of_decide_eq_true h4.2
      have hp : p.path = q.path := of_decide_eq_true h3.2
      have hhs : hostToSurt p.host = hostToSurt q.host := by
        unfold hostToSurt
        rw [hh]
      dsimp only
      rw [hs, hp, hhs]

/-- C7 witness: the two urls from the specification, differing only in host
case, are policy equivalent and normalize to the same key. -/
theorem c7_surt_witness :
    policyEquivB "http://Example.com/a" "http://example.com/a" = true ∧
    (surt "http://Example.com/a" = surt "http://example.com/a" ∧
     surt "http://Example.com/a" = surt "http://Example.com/a") :=
  ⟨by decide, c7_surt_deterministic_and_case_insensitive
    "http://Example.com/a" "http://example.com/a" (by decide)⟩

/-- C8 counterexample: the entry points do not expose exactly the six
specified operational flags; brozzler_worker also exposes --chrome-exe,
which is none of them. -/
theorem c8_extra_flag_counterexample :
    ∃ a ∈ workerArgSpecs, "--chrome-exe" ∈ a.flags ∧
      ∀ f ∈ a.flags, f ∉ specifiedOperationalFlags := by
  decide

/-- C8 amended: the CLI entry points expose each of the six specified
operational flags, among other flags, with the documented shapes and
defaults: the comma separated store endpoint list defaults to localhost, the
store namespace defaults to brozzler, max browsers defaults to 1 and is
parsed as an integer, the per site time limit is optional with absence
meaning no limit, the robots policy override is a store_true flag, and the
proxy endpoint defaults to unset. -/
theorem c8_operational_flags_present :
    (∃ a ∈ workerArgSpecs, a.flags = ["--rethinkdb-servers"] ∧
      a.defaultVal = some "localhost") ∧
    splitOnComma "localhost" = ["localhost"] ∧
    splitOnComma "db0.foo.org,db1.foo.org" = ["db0.foo.org", "db1.foo.org"] ∧
    (∃ a ∈ workerArgSpecs, a.flags = ["--rethinkdb-db"] ∧
      a.defaultVal = some "brozzler") ∧
    (∃ a ∈ workerArgSpecs, a.flags = ["-n", "--max-browsers"] ∧
      a.defaultVal = some "1") ∧
    maxBrowsersValue none = some 1 ∧
    (∃ a ∈ newSiteArgSpecs, a.flags = ["--time-limit"] ∧ a.defaultVal = none) ∧
    timeLimitValue none = some none ∧
    timeLimitValue (some "") = some none ∧
    timeLimitValue (some "60") = some (some 60) ∧
    (∃ a ∈ newSiteArgSpecs, a.flags = ["--ignore-robots"] ∧
      a.storesTrue = true) ∧
    (∃ a ∈ newSiteArgSpecs, a.flags = ["--proxy"] ∧ a.defaultVal = none) := by
  decide

/-- C9: an argument whose first five characters are sha1: makes the captures
lookup raise the not implemented exception without issuing any store
query. -/
theorem c9_sha1_not_implemented (s : String) (captures : List Capture)
    (h : strTake s 5 = "sha1:") :
    (brozzler_list_captures s captures).outcome =
      ListCapturesOutcome.raisedNotImplemented "not implemented" ∧
    (brozzler_list_captures s captures).storeQueries = 0 := by
  simp [brozzler_list_captures, h]

/-- C9 witness: a concrete sha1 argument raises with no query issued. -/
theorem c9_sha1_not_implemented_witness :
    strTake "sha1:deadbeef" 5 = "sha1:" ∧
    ((brozzler_list_captures "sha1:deadbeef" [exampleCaptureK]).outcome =
      ListCapturesOutcome.raisedNotImplemented "not implemented" ∧
     (brozzler_list_captures "sha1:deadbeef" [exampleCaptureK]).storeQueries = 0) :=
  ⟨by decide, c9_sha1_not_implemented "sha1:deadbeef" [exampleCaptureK]
    (by decide)⟩

/-- C10: single page mode constructs a synthetic Site with id -1 and a Page
whose site_id is that id, builds the worker with no frontier, opens no
datastore connection, and defaults the behavior parameters to the empty
mapping when the flag is absent. -/
theorem c10_single_page_setup (url : String) (proxy : Option String)
    (enableWarcproxFeatures : Bool) (behaviorParametersArg : Option String)
    (username password : Option String)
    (jsonLoads : String → List (String × String)) :
    (brozzle_page_setup url proxy enableWarcproxFeatures behaviorParametersArg
      username password jsonLoads).site.id = -1 ∧
    (brozzle_page_setup url proxy enableWarcproxFeatures behaviorParametersArg
      username password jsonLoads).page.site_id =
      (brozzle_page_setup url proxy enableWarcproxFeatures behaviorParametersArg
        username password jsonLoads).site.id ∧
    (brozzle_page_setup url proxy enableWarcproxFeatures behaviorParametersArg
      username password jsonLoads).worker.frontier = none ∧
    (brozzle_page_setup url proxy enableWarcproxFeatures behaviorParametersArg
      username password jsonLoads).datastoreConnections = 0 ∧
    (behaviorParametersArg = none →
      (brozzle_page_setup url proxy enableWarcproxFeatures behaviorParametersArg
        username password jsonLoads).site.behavior_parameters = []) := by
  refine ⟨rfl, rfl, rfl, rfl, ?_⟩
  intro hb
  subst hb
  rfl

/-- C10 witness: the setup on a concrete url with the behavior parameters
flag absent. -/
theorem c10_single_page_setup_witness :
    (brozzle_page_setup "http://example.com/" none false none none none
      (fun _ => [("k", "v")])).site.id = -1 ∧
    (brozzle_page_setup "http://example.com/" none false none none none
      (fun _ => [("k", "v")])).page.site_id =
      (brozzle_page_setup "http://example.com/" none false none none none
        (fun _ => [("k", "v")])).site.id ∧
    (brozzle_page_setup "http://example.com/" none false none none none
      (fun _ => [("k", "v")])).worker.frontier = none ∧
    (brozzle_page_setup "http://example.com/" none false none none none
      (fun _ => [("k", "v")])).datastoreConnections = 0 ∧
    ((none : Option String) = none →
      (brozzle_page_setup "http://example.com/" none false none none none
        (fun _ => [("k", "v")])).site.behavior_parameters = []) :=
  c10_single_page_setup "http://example.com/" none false none none none
    (fun _ => [("k", "v")])

end Brozzler
